import Mathlib

/-!
Shallow embedding of the smart network request sanitizer of the
sonarly-tracker repository (packages/session-replay, networkSanitizer
module) and proofs about its rule chain.

JavaScript semantics modelled explicitly:
* a possibly-absent field is an `Option`;
* a `number` that may be `NaN` is an `Option Int` (`none` = NaN);
* a thrown exception is `Except.error ()`;
* `String.prototype.includes` / `endsWith` are substring and suffix
  tests over the character lists of the strings;
* `toLowerCase` / `toUpperCase` map the ASCII case of each character.
-/

namespace NetworkSanitizer

/-- JavaScript lower-casing of a string (ASCII model of toLowerCase). -/
def jsToLower (s : String) : String := ⟨s.data.map Char.toLower⟩

/-- JavaScript upper-casing of a string (ASCII model of toUpperCase). -/
def jsToUpper (s : String) : String := ⟨s.data.map Char.toUpper⟩

/-- Boolean prefix test on character lists. -/
def charsPrefixOf : List Char → List Char → Bool
  | [], _ => true
  | _ :: _, [] => false
  | a :: as, b :: bs => a == b && charsPrefixOf as bs

/-- Boolean infix test on character lists: does the second list contain
the first as a contiguous run. -/
def charsInfixOf (sub : List Char) : List Char → Bool
  | [] => charsPrefixOf sub []
  | b :: bs => charsPrefixOf sub (b :: bs) || charsInfixOf sub bs

/-- JavaScript `s.includes(sub)`: substring containment. -/
def jsIncludes (s sub : String) : Bool := charsInfixOf sub.data s.data

/-- JavaScript `s.endsWith(sub)`: suffix test. -/
def jsEndsWith (s sub : String) : Bool :=
  charsPrefixOf sub.data.reverse s.data.reverse

/-- Longest leading run of decimal digits. -/
def takeDigits : List Char → List Char
  | [] => []
  | c :: cs => if c.isDigit then c :: takeDigits cs else []

/-- Numeric value of a digit list. -/
def digitsVal (ds : List Char) : Nat :=
  ds.foldl (fun a c => a * 10 + (c.toNat - 48)) 0

/-- JavaScript `parseInt(s, 10)`: skip leading whitespace, optional
sign, longest digit prefix; `none` models NaN when no digit follows. -/
def jsParseInt (s : String) : Option Int :=
  let cs := s.data.dropWhile (fun c => c == ' ' || c == '\t' || c == '\n' || c == '\r')
  let go : List Char → Bool → Option Int := fun ds neg =>
    match takeDigits ds with
    | [] => none
    | digs => some (if neg then -(digitsVal digs : Int) else (digitsVal digs : Int))
  match cs with
  | '-' :: rest => go rest true
  | '+' :: rest => go rest false
  | _ => go cs false

/-- JavaScript `x >= t` where `x` may be `undefined` (comparison with
undefined is false). -/
def jsGeOpt : Option Int → Int → Bool
  | none, _ => false
  | some a, b => decide (a ≥ b)

/-- JavaScript `x > t` where `x` may be NaN (comparison with NaN is
false). -/
def jsNumGt : Option Int → Int → Bool
  | none, _ => false
  | some a, b => decide (a > b)

/-- Request or response payload of a network event: headers and body,
mirroring the `RequestResponseData` sub-objects. -/
structure Payload where
  headers : List (String × String)
  body : Option String
deriving DecidableEq, Repr

/-- A captured network event (`RequestResponseData`).  `method` and
`status` may be absent at runtime even though the TypeScript type marks
them required; `request` and `response` are reached through optional
chaining in the source, so they are optional here. -/
structure RequestEvent where
  url : String
  method : Option String
  status : Option Int
  request : Option Payload
  response : Option Payload
deriving DecidableEq, Repr

/-- A URL pattern: a literal substring or a regular expression, the
latter modelled by its test function on the raw URL. -/
inductive Pattern where
  | literal (s : String)
  | regex (test : String → Bool)

/-- Fully resolved sanitizer configuration (the `config` object built
inside `createSmartSanitizer`). -/
structure SanitizerConfig where
  slowRequestThreshold : Int
  errorStatusThreshold : Int
  ignoredDomains : List String
  apiPatterns : List Pattern
  ignoredExtensions : List String
  ownDomains : List String
  customFilter : Option (RequestEvent → Except Unit Bool)

/-- `matchesPattern` from the source: a literal pattern matches by
case-insensitive substring containment against the URL; a regex pattern
is tested against the original URL. -/
def matchesPattern (url : String) (patterns : List Pattern) : Bool :=
  let lowerUrl := jsToLower url
  patterns.any fun p =>
    match p with
    | .literal s => jsIncludes lowerUrl (jsToLower s)
    | .regex t => t url

/-- `getHostname` from the source: `new URL(url).hostname`, falling back
to the empty string when the host URL constructor throws.  The host
constructor is abstracted as a `parse` function returning `none` on
failure. -/
def getHostname (parse : String → Option String) (url : String) : String :=
  (parse url).getD ""

/-- `isStaticResource` from the source: the lower-cased URL ends with
one of the configured extension suffixes.  Note that the extension
entries themselves are compared verbatim, not lower-cased. -/
def isStaticResource (url : String) (extensions : List String) : Bool :=
  let lowerUrl := jsToLower url
  extensions.any fun ext => jsEndsWith lowerUrl ext

/-- Modelled from the spec: the behavior of the host `new URL`
constructor used by `getHostname`, which is a browser API and not part
of the repository.  It accepts absolute URLs of the form
`scheme://host...`, yielding the lower-cased host up to the first
delimiter, and fails on inputs without a scheme separator, matching the
statement of the spec that hostname resolution on unparsable URLs fails
closed.  Simplified: user-info, ports and IPv6 bracket syntax are not
given special treatment. -/
def afterScheme : Bool → List Char → Option (List Char)
  | seen, ':' :: '/' :: '/' :: rest => if seen then some rest else none
  | _, _ :: cs => afterScheme true cs
  | _, [] => none

/-- Modelled from the spec, continued: full hostname extraction of the
host URL constructor, built on `afterScheme`. -/
def urlHostname (url : String) : Option String :=
  match afterScheme false url.data with
  | none => none
  | some rest =>
    let host := rest.takeWhile fun c =>
      !(c == '/' || c == '?' || c == '#' || c == ':' || c == '@')
    if host.isEmpty then none else some ⟨host.map Char.toLower⟩

/-- Rule 1 condition: `data.status >= config.errorStatusThreshold`. -/
def rule1Fires (config : SanitizerConfig) (data : RequestEvent) : Bool :=
  jsGeOpt data.status config.errorStatusThreshold

/-- The duration read by rule 2: the `x-response-time` response header
parsed with `parseInt`, or `0` when the header (or the response) is
absent. -/
def lookupHeader (p : Option Payload) (key : String) : Option String :=
  match p with
  | none => none
  | some payload => (payload.headers.find? fun kv => kv.1 == key).map (fun kv => kv.2)

/-- The duration value rule 2 compares against the threshold. -/
def requestDuration (data : RequestEvent) : Option Int :=
  match lookupHeader data.response "x-response-time" with
  | some s => jsParseInt s
  | none => some 0

/-- Rule 2 condition: `duration > 0 && duration > config.slowRequestThreshold`. -/
def rule2Fires (config : SanitizerConfig) (data : RequestEvent) : Bool :=
  jsNumGt (requestDuration data) 0 &&
    jsNumGt (requestDuration data) config.slowRequestThreshold

/-- Rule 3 condition: the URL is a static resource. -/
def rule3Fires (config : SanitizerConfig) (data : RequestEvent) : Bool :=
  isStaticResource data.url config.ignoredExtensions

/-- Rule 4 condition: some ignored domain occurs in the hostname or in
the lower-cased URL. -/
def rule4Fires (parse : String → Option String) (config : SanitizerConfig)
    (data : RequestEvent) : Bool :=
  config.ignoredDomains.any fun domain =>
    jsIncludes (getHostname parse data.url) domain ||
      jsIncludes (jsToLower data.url) domain

/-- Rule 5 condition: the URL matches an API pattern. -/
def rule5Fires (config : SanitizerConfig) (data : RequestEvent) : Bool :=
  matchesPattern data.url config.apiPatterns

/-- Rule 6 condition on the present method string: the upper-cased
method is none of GET, HEAD, OPTIONS. -/
def rule6Fires (m : String) : Bool :=
  let method := jsToUpper m
  method != "GET" && method != "HEAD" && method != "OPTIONS"

/-- Rule 7 condition: some own domain occurs in the hostname. -/
def rule7Fires (parse : String → Option String) (config : SanitizerConfig)
    (data : RequestEvent) : Bool :=
  config.ownDomains.any fun domain =>
    jsIncludes (getHostname parse data.url) domain

/-- The `smartSanitizer` closure returned by `createSmartSanitizer`:
the eight-rule chain.  `Except.ok (some data)` is Keep,
`Except.ok none` is Drop (the source returns `null`), and
`Except.error ()` is a thrown exception — which happens exactly when
`data.method.toUpperCase()` is evaluated on an absent method at rule 6,
or when a caller-supplied custom filter itself throws at rule 8. -/
def smartSanitizer (parse : String → Option String) (config : SanitizerConfig)
    (data : RequestEvent) : Except Unit (Option RequestEvent) :=
  if rule1Fires config data then Except.ok (some data)
  else if rule2Fires config data then Except.ok (some data)
  else if rule3Fires config data then Except.ok none
  else if rule4Fires parse config data then Except.ok none
  else if rule5Fires config data then Except.ok (some data)
  else
    match data.method with
    | none => Except.error ()
    | some m =>
      if rule6Fires m then Except.ok (some data)
      else if rule7Fires parse config data then Except.ok (some data)
      else
        match config.customFilter with
        | none => Except.ok none
        | some f =>
          match f data with
          | Except.error e => Except.error e
          | Except.ok true => Except.ok (some data)
          | Except.ok false => Except.ok none

/-- Default ignored domains from the source. -/
def DEFAULT_IGNORED_DOMAINS : List String :=
  ["google-analytics.com", "googletagmanager.com", "analytics.google.com",
   "doubleclick.net", "googlesyndication.com",
   "facebook.com/tr", "facebook.net", "connect.facebook.net",
   "twitter.com/i/jot", "linkedin.com/px", "pinterest.com/ct",
   "segment.com", "segment.io", "mparticle.com",
   "hotjar.com", "mouseflow.com", "smartlook.com", "fullstory.com",
   "logrocket.com"]

/-- Default ignored extensions from the source. -/
def DEFAULT_IGNORED_EXTENSIONS : List String :=
  [".js", ".mjs", ".cjs",
   ".css", ".scss", ".sass", ".less",
   ".png", ".jpg", ".jpeg", ".gif", ".svg", ".webp", ".avif", ".ico", ".bmp",
   ".woff", ".woff2", ".ttf", ".eot", ".otf",
   ".mp4", ".webm", ".ogg", ".mp3", ".wav",
   ".pdf", ".zip", ".tar", ".gz"]

/-- Default API patterns from the source. -/
def DEFAULT_API_PATTERNS : List Pattern :=
  [.literal "/api/", .literal "/graphql", .literal "/v1/", .literal "/v2/",
   .literal "/v3/", .literal "/rest/", .literal "/rpc/"]

/-- Partial options accepted by `createSmartSanitizer`; an absent field
is `none` and is replaced by its default. -/
structure SmartSanitizerOptions where
  slowRequestThreshold : Option Int := none
  errorStatusThreshold : Option Int := none
  ignoredDomains : Option (List String) := none
  apiPatterns : Option (List Pattern) := none
  ignoredExtensions : Option (List String) := none
  ownDomains : Option (List String) := none
  customFilter : Option (RequestEvent → Except Unit Bool) := none

/-- The default-filling `config` construction at the top of
`createSmartSanitizer`.  `windowHostname` models
`typeof window !== 'undefined' ? [window.location.hostname] : []`. -/
def resolveConfig (windowHostname : Option String)
    (options : SmartSanitizerOptions) : SanitizerConfig where
  slowRequestThreshold := options.slowRequestThreshold.getD 2000
  errorStatusThreshold := options.errorStatusThreshold.getD 400
  ignoredDomains := options.ignoredDomains.getD DEFAULT_IGNORED_DOMAINS
  apiPatterns := options.apiPatterns.getD DEFAULT_API_PATTERNS
  ignoredExtensions := options.ignoredExtensions.getD DEFAULT_IGNORED_EXTENSIONS
  ownDomains := options.ownDomains.getD
    (match windowHostname with
     | some h => [h]
     | none => [])
  customFilter := options.customFilter

/-- `createSmartSanitizer` from the source: fill defaults, then run the
rule chain. -/
def createSmartSanitizer (windowHostname : Option String)
    (parse : String → Option String) (options : SmartSanitizerOptions) :
    RequestEvent → Except Unit (Option RequestEvent) :=
  smartSanitizer parse (resolveConfig windowHostname options)

/-- One side of the scoped intent given to `createCustomSanitizer`. -/
structure ScopedLists where
  domains : Option (List String) := none
  patterns : Option (List Pattern) := none

/-- The scoped intent accepted by `createCustomSanitizer`. -/
structure CustomSanitizerConfig where
  captureOnly : Option ScopedLists := none
  ignore : Option ScopedLists := none

/-- `createCustomSanitizer` from the source: translate the scoped
intent into smart-sanitizer options.  The conditional on
`config.ignore?.patterns` uses JavaScript truthiness, under which a
present (even empty) array is truthy. -/
def createCustomSanitizer (windowHostname : Option String)
    (parse : String → Option String) (config : CustomSanitizerConfig) :
    RequestEvent → Except Unit (Option RequestEvent) :=
  createSmartSanitizer windowHostname parse
    { ownDomains := config.captureOnly.bind (fun c => c.domains)
      apiPatterns := config.captureOnly.bind (fun c => c.patterns)
      ignoredDomains := config.ignore.bind (fun c => c.domains)
      customFilter :=
        match config.ignore.bind (fun c => c.patterns) with
        | some ps => some (fun data => Except.ok (!matchesPattern data.url ps))
        | none => none }

/-- The rule chain with rule 2 removed.  Stated from the words of the
spec ("behavior is then simply never triggers", i.e. as if rule 2 were
absent) for comparison with the implemented chain; this definition is
not part of the source. -/
def smartSanitizerNoRule2 (parse : String → Option String)
    (config : SanitizerConfig) (data : RequestEvent) :
    Except Unit (Option RequestEvent) :=
  if rule1Fires config data then Except.ok (some data)
  else if rule3Fires config data then Except.ok none
  else if rule4Fires parse config data then Except.ok none
  else if rule5Fires config data then Except.ok (some data)
  else
    match data.method with
    | none => Except.error ()
    | some m =>
      if rule6Fires m then Except.ok (some data)
      else if rule7Fires parse config data then Except.ok (some data)
      else
        match config.customFilter with
        | none => Except.ok none
        | some f =>
          match f data with
          | Except.error e => Except.error e
          | Except.ok true => Except.ok (some data)
          | Except.ok false => Except.ok none

/-- Execution of the chain terminates at one of rules 1 through 7: some
rule among 1-5 fires, or the method is present and rule 6 or rule 7
fires.  When this is false and rules 1-5 fail, the chain either throws
at the method access or reaches rule 8. -/
def decidedByRules17 (parse : String → Option String)
    (config : SanitizerConfig) (data : RequestEvent) : Bool :=
  rule1Fires config data || rule2Fires config data || rule3Fires config data ||
    rule4Fires parse config data || rule5Fires config data ||
    (match data.method with
     | some m => rule6Fires m || rule7Fires parse config data
     | none => false)

/-- The option translation stated from the words of the claim about
`createCustomSanitizer`: captureOnly.domains as ownDomains,
captureOnly.patterns as apiPatterns, ignore.domains as ignoredDomains,
and, when ignore.patterns is given, a customFilter returning false
exactly when the URL matches some ignored pattern. -/
def scopedOptionsSpec (config : CustomSanitizerConfig) : SmartSanitizerOptions where
  ownDomains := config.captureOnly.bind fun c => c.domains
  apiPatterns := config.captureOnly.bind fun c => c.patterns
  ignoredDomains := config.ignore.bind fun c => c.domains
  customFilter := (config.ignore.bind fun c => c.patterns).map
    fun ps => fun data => Except.ok (!matchesPattern data.url ps)

/-- Concrete configuration for the claim C1 witness: the event domain
is on the ignore list and the URL has an ignored extension. -/
def c1cfg : SanitizerConfig :=
  { slowRequestThreshold := 2000, errorStatusThreshold := 400,
    ignoredDomains := ["google-analytics.com"], apiPatterns := [],
    ignoredExtensions := [".js"], ownDomains := [], customFilter := none }

/-- Concrete failing event for the claim C1 witness. -/
def c1evt : RequestEvent :=
  { url := "https://www.google-analytics.com/collect.js", method := some "GET",
    status := some 500, request := none, response := none }

/-- Concrete configuration for claim C2: no custom filter, every list
empty. -/
def c2cfg : SanitizerConfig :=
  { slowRequestThreshold := 2000, errorStatusThreshold := 400,
    ignoredDomains := [], apiPatterns := [], ignoredExtensions := [],
    ownDomains := [], customFilter := none }

/-- Concrete event for the claim C2 counterexample: absent method and
absent status. -/
def c2evt : RequestEvent :=
  { url := "https://example.org/page", method := none, status := none,
    request := none, response := none }

/-- Concrete event for the claim C2 witness: method present. -/
def c2wevt : RequestEvent :=
  { url := "https://example.org/page", method := some "GET", status := none,
    request := none, response := none }

/-- Concrete configuration for claim C3: an own-domain entry and
nothing else. -/
def c3cfg : SanitizerConfig :=
  { slowRequestThreshold := 2000, errorStatusThreshold := 400,
    ignoredDomains := [], apiPatterns := [], ignoredExtensions := [],
    ownDomains := ["app.example.com"], customFilter := none }

/-- Concrete event for claim C3: a relative URL that contains the
configured own-domain entry as a substring. -/
def c3evt : RequestEvent :=
  { url := "/app.example.com/page", method := some "GET", status := some 200,
    request := none, response := none }

/-- Concrete configuration for claim C4: a negative slow-request
threshold, with an ignored extension that would otherwise drop the
event. -/
def c4cfg : SanitizerConfig :=
  { slowRequestThreshold := -1, errorStatusThreshold := 400,
    ignoredDomains := [], apiPatterns := [], ignoredExtensions := [".js"],
    ownDomains := [], customFilter := none }

/-- Concrete event for the claim C4 counterexample: a static resource
with a positive response-time header. -/
def c4evt : RequestEvent :=
  { url := "https://a.com/x.js", method := some "GET", status := some 200,
    request := none,
    response := some { headers := [("x-response-time", "100")], body := none } }

/-- Concrete event for the claim C4 witness. -/
def c4wevt : RequestEvent :=
  { url := "https://b.org/y.js", method := some "GET", status := some 100,
    request := none,
    response := some { headers := [("x-response-time", "50")], body := none } }

/-- Concrete configuration for the claim C5 witness: the URL matches an
ignored extension, an API pattern and an own domain at once. -/
def c5cfg : SanitizerConfig :=
  { slowRequestThreshold := 2000, errorStatusThreshold := 400,
    ignoredDomains := [], apiPatterns := [Pattern.literal "/api/"],
    ignoredExtensions := [".js"], ownDomains := ["a.com"], customFilter := none }

/-- Concrete event for the claim C5 witness: a mutation request to an
own domain matching an API pattern, with a static extension. -/
def c5evt : RequestEvent :=
  { url := "https://a.com/api/x.js", method := some "POST", status := some 200,
    request := none, response := none }

/-- Concrete configuration for the claim C7 witness. -/
def c7cfg : SanitizerConfig :=
  { slowRequestThreshold := 2000, errorStatusThreshold := 400,
    ignoredDomains := [], apiPatterns := [Pattern.literal "/api/"],
    ignoredExtensions := [".js"], ownDomains := [], customFilter := none }

/-- Concrete event for the claim C7 witness: no response-time header. -/
def c7evt : RequestEvent :=
  { url := "https://a.com/api/x", method := some "GET", status := some 200,
    request := none, response := some { headers := [], body := none } }

/-- Concrete configuration for the claim C9 witness: nothing matches,
no filter. -/
def c9cfg : SanitizerConfig :=
  { slowRequestThreshold := 2000, errorStatusThreshold := 400,
    ignoredDomains := [], apiPatterns := [], ignoredExtensions := [],
    ownDomains := [], customFilter := none }

/-- Concrete event for the claim C9 witness: a mutation request, so
rule 6 decides. -/
def c9evt : RequestEvent :=
  { url := "https://a.com/x", method := some "POST", status := some 200,
    request := none, response := none }

/-- Concrete filter for the claim C9 witness. -/
def c9filter : Option (RequestEvent → Except Unit Bool) :=
  some fun _ => Except.ok true

/-- Concrete configuration for the claim C10 witness, first part: the
ignored-domains list contains the empty string. -/
def c10cfgA : SanitizerConfig :=
  { slowRequestThreshold := 2000, errorStatusThreshold := 400,
    ignoredDomains := [""], apiPatterns := [], ignoredExtensions := [],
    ownDomains := [], customFilter := none }

/-- Concrete configuration for the claim C10 witness, second part: the
own-domains list contains the empty string. -/
def c10cfgB : SanitizerConfig :=
  { slowRequestThreshold := 2000, errorStatusThreshold := 400,
    ignoredDomains := [], apiPatterns := [], ignoredExtensions := [],
    ownDomains := [""], customFilter := none }

/-- Concrete event for the claim C10 witness: an unparsable URL, so the
extracted hostname is itself the empty string. -/
def c10evt : RequestEvent :=
  { url := "not-a-valid-url", method := some "GET", status := some 200,
    request := none, response := none }

/-- The empty character list is an infix of every list. -/
theorem charsInfixOf_nil (l : List Char) : charsInfixOf [] l = true := by
  cases l with
  | nil => rfl
  | cons b bs => rfl

/-- JavaScript includes with the empty search string is always true. -/
theorem jsIncludes_empty_pattern (s : String) : jsIncludes s "" = true :=
  charsInfixOf_nil s.data

/-- The empty string includes a string exactly when that string is
empty. -/
theorem jsIncludes_empty_string_iff (d : String) : jsIncludes "" d = true ↔ d = "" := by
  constructor
  · intro h
    cases d with
    | mk l =>
      cases l with
      | nil => rfl
      | cons c cs => simp [jsIncludes, charsInfixOf, charsPrefixOf] at h
  · intro h
    subst h
    rfl

/-- Claim C1: for every configuration and every event whose status is
present and at least the error-status threshold, the classifier keeps
the event, regardless of every other event field and every other
configuration field; no configuration can cause such an event to be
dropped. -/
theorem claim1_failure_always_kept (parse : String → Option String)
    (config : SanitizerConfig) (data : RequestEvent) (s : Int)
    (hs : data.status = some s) (h : s ≥ config.errorStatusThreshold) :
    smartSanitizer parse config data = Except.ok (some data) := by
  have h1 : rule1Fires config data = true := by
    simp [rule1Fires, hs, jsGeOpt, h]
  simp [smartSanitizer, h1]

/-- Witness for claim C1: a 500-status event whose domain is on the
ignore list and whose URL has an ignored extension is still kept. -/
theorem claim1_failure_always_kept_witness :
    smartSanitizer urlHostname c1cfg c1evt = Except.ok (some c1evt) :=
  claim1_failure_always_kept urlHostname c1cfg c1evt 500 rfl (by decide)

/-- Counterexample to claim C2 as stated: an event with an absent
method that reaches rule 6 makes the classifier throw (the source
evaluates `data.method.toUpperCase()` without a guard), so the
classifier does not return a verdict for every malformed event. -/
theorem claim2_counterexample :
    smartSanitizer urlHostname c2cfg c2evt = Except.error () := rfl

/-- Claim C2 as amended: for every configuration without a custom
filter and every event whose method is present, the classifier returns
a verdict without throwing — whatever the URL (parsable or not), the
status (present, absent) and the headers. -/
theorem claim2_no_throw_with_method (parse : String → Option String)
    (config : SanitizerConfig) (data : RequestEvent) (m : String)
    (hcf : config.customFilter = none) (hm : data.method = some m) :
    ∃ v, smartSanitizer parse config data = Except.ok v := by
  unfold smartSanitizer
  rw [hm, hcf]
  repeat' split
  all_goals first
    | exact ⟨_, rfl⟩
    | simp_all

/-- Witness for claim C2 as amended, at a concrete event with a present
method and an absent status. -/
theorem claim2_no_throw_with_method_witness :
    ∃ v, smartSanitizer urlHostname c2cfg c2wevt = Except.ok v :=
  claim2_no_throw_with_method urlHostname c2cfg c2wevt "GET" rfl rfl

/-- Counterexample to claim C3 as stated: a relative URL whose text
contains the configured own-domain entry does not trigger rule 7.  The
URL is unparsable (the modelled host parser fails), the entry occurs in
the raw URL, yet the event is dropped, because rule 7 tests only the
extracted hostname and has no raw-URL fallback. -/
theorem claim3_counterexample :
    urlHostname c3evt.url = none ∧
    jsIncludes (jsToLower c3evt.url) "app.example.com" = true ∧
    smartSanitizer urlHostname c3cfg c3evt = Except.ok none := by
  refine ⟨rfl, by decide, rfl⟩

/-- Claim C3 as amended: on an unparsable URL the extracted hostname is
the empty string; the third-party ignore of rule 4 then degrades to a
substring test of each configured entry against the lower-cased raw
URL; but the own-domain capture of rule 7 keeps testing only the
hostname, so with an empty hostname it fires exactly when some
own-domain entry is the empty string — an own-domain entry occurring in
a relative URL does not trigger it. -/
theorem claim3_degraded_matching (parse : String → Option String)
    (config : SanitizerConfig) (data : RequestEvent)
    (h : parse data.url = none) :
    getHostname parse data.url = "" ∧
    (rule4Fires parse config data = true ↔
      ∃ d ∈ config.ignoredDomains, jsIncludes (jsToLower data.url) d = true) ∧
    (rule7Fires parse config data = true ↔ "" ∈ config.ownDomains) := by
  have hh : getHostname parse data.url = "" := by simp [getHostname, h]
  refine ⟨hh, ?_, ?_⟩
  · simp only [rule4Fires, hh, List.any_eq_true, Bool.or_eq_true]
    constructor
    · rintro ⟨d, hd, hc | hc⟩
      · have hde : d = "" := (jsIncludes_empty_string_iff d).mp hc
        subst hde
        exact ⟨"", hd, jsIncludes_empty_pattern _⟩
      · exact ⟨d, hd, hc⟩
    · rintro ⟨d, hd, hc⟩
      exact ⟨d, hd, Or.inr hc⟩
  · simp only [rule7Fires, hh, List.any_eq_true]
    constructor
    · rintro ⟨d, hd, hc⟩
      have hde : d = "" := (jsIncludes_empty_string_iff d).mp hc
      subst hde
      exact hd
    · intro hd
      exact ⟨"", hd, (jsIncludes_empty_string_iff "").mpr rfl⟩

/-- Witness for claim C3 as amended, at the concrete relative URL. -/
theorem claim3_degraded_matching_witness :
    getHostname urlHostname c3evt.url = "" ∧
    (rule4Fires urlHostname c3cfg c3evt = true ↔
      ∃ d ∈ c3cfg.ignoredDomains, jsIncludes (jsToLower c3evt.url) d = true) ∧
    (rule7Fires urlHostname c3cfg c3evt = true ↔ "" ∈ c3cfg.ownDomains) :=
  claim3_degraded_matching urlHostname c3cfg c3evt rfl

/-- Counterexample to claim C4 as stated: with a negative threshold,
rule 2 is not inert — it fires on any positive parsed duration.  Here
the implemented chain keeps the event while the chain with rule 2
removed drops it (rule 3, static extension), so the verdict is not the
one of the rule-2-absent chain. -/
theorem claim4_counterexample :
    c4cfg.slowRequestThreshold < 0 ∧
    smartSanitizer urlHostname c4cfg c4evt = Except.ok (some c4evt) ∧
    smartSanitizerNoRule2 urlHostname c4cfg c4evt = Except.ok none := by
  refine ⟨by decide, rfl, rfl⟩

/-- Claim C4 as amended: a negative threshold is accepted without
error, but rule 2 then fires whenever the parsed duration is positive
(any positive duration exceeds a negative threshold): every event not
already kept by rule 1 and carrying a positive duration is kept. -/
theorem claim4_negative_threshold_fires (parse : String → Option String)
    (config : SanitizerConfig) (data : RequestEvent)
    (hneg : config.slowRequestThreshold < 0)
    (h1 : rule1Fires config data = false)
    (hdur : jsNumGt (requestDuration data) 0 = true) :
    smartSanitizer parse config data = Except.ok (some data) := by
  have h2 : rule2Fires config data = true := by
    rcases hd : requestDuration data with _ | d
    · rw [hd] at hdur
      simp [jsNumGt] at hdur
    · rw [hd] at hdur
      have hdpos : (0 : Int) < d := by simpa [jsNumGt] using hdur
      have hlt : config.slowRequestThreshold < d := lt_trans hneg hdpos
      simp [rule2Fires, hd, jsNumGt, hdpos, hlt]
  simp [smartSanitizer, h1, h2]

/-- Witness for claim C4 as amended, at a concrete event with
duration header 50 and a negative threshold. -/
theorem claim4_negative_threshold_fires_witness :
    smartSanitizer urlHostname c4cfg c4wevt = Except.ok (some c4wevt) :=
  claim4_negative_threshold_fires urlHostname c4cfg c4wevt (by decide) rfl rfl

/-- Claim C5: when neither rule 1 nor rule 2 fires and the lower-cased
URL ends with a configured ignored extension, the classifier drops the
event — rule 3 is terminal, so matching API patterns, own domains or a
mutation method cannot rescue a static-extension URL. -/
theorem claim5_static_drop (parse : String → Option String)
    (config : SanitizerConfig) (data : RequestEvent)
    (h1 : rule1Fires config data = false)
    (h2 : rule2Fires config data = false)
    (hext : ∃ ext ∈ config.ignoredExtensions,
      jsEndsWith (jsToLower data.url) ext = true) :
    smartSanitizer parse config data = Except.ok none := by
  have h3 : rule3Fires config data = true := by
    simp only [rule3Fires, isStaticResource, List.any_eq_true]
    exact hext
  simp [smartSanitizer, h1, h2, h3]

/-- Witness for claim C5: a POST to an own domain matching an API
pattern is still dropped because of its `.js` extension. -/
theorem claim5_static_drop_witness :
    smartSanitizer urlHostname c5cfg c5evt = Except.ok none :=
  claim5_static_drop urlHostname c5cfg c5evt rfl rfl
    ⟨".js", by decide, by decide⟩

/-- Counterexample to claim C6 as stated: the suffix test lower-cases
only the URL, not the extension entries, so changing the case of an
entry changes the outcome: the URL `x.js` matches the entry `.js` but
not the entry `.JS`. -/
theorem claim6_counterexample :
    isStaticResource "x.js" [".js"] = true ∧
    isStaticResource "x.js" [".JS"] = false := by
  refine ⟨rfl, rfl⟩

/-- Claim C6 as amended: the static-extension suffix test is
case-insensitive in the URL only — two URLs with the same lower-casing
match the same extension lists — while extension entries are compared
verbatim against the lower-cased URL, so an entry containing an
upper-case letter never gains matches by the lower-casing. -/
theorem claim6_url_case_insensitive (url1 url2 : String) (exts : List String)
    (h : jsToLower url1 = jsToLower url2) :
    isStaticResource url1 exts = isStaticResource url2 exts := by
  simp only [isStaticResource, h]

/-- Witness for claim C6 as amended: `X.JS` and `x.js` agree on the
extension list containing `.js`. -/
theorem claim6_url_case_insensitive_witness :
    isStaticResource "X.JS" [".js"] = isStaticResource "x.js" [".js"] :=
  claim6_url_case_insensitive "X.JS" "x.js" [".js"] (by decide)

/-- Claim C7: when the response carries no `x-response-time` header, or
one that does not parse to a positive integer, rule 2 never fires: the
verdict is that of the chain with rule 2 absent, so slow-request
detection depends entirely on the server populating that header. -/
theorem claim7_slow_needs_header (parse : String → Option String)
    (config : SanitizerConfig) (data : RequestEvent)
    (h : lookupHeader data.response "x-response-time" = none ∨
      ∃ s, lookupHeader data.response "x-response-time" = some s ∧
        ∀ d, jsParseInt s = some d → d ≤ 0) :
    smartSanitizer parse config data = smartSanitizerNoRule2 parse config data := by
  have h2 : rule2Fires config data = false := by
    rcases h with hnone | ⟨s, hs, hd⟩
    · simp [rule2Fires, requestDuration, hnone, jsNumGt]
    · rcases hp : jsParseInt s with _ | d
      · simp [rule2Fires, requestDuration, hs, hp, jsNumGt]
      · have hle : d ≤ 0 := hd d hp
        simp [rule2Fires, requestDuration, hs, hp, jsNumGt, not_lt.mpr hle]
  simp [smartSanitizer, smartSanitizerNoRule2, h2]

/-- Witness for claim C7, at a concrete event without the header. -/
theorem claim7_slow_needs_header_witness :
    smartSanitizer urlHostname c7cfg c7evt =
      smartSanitizerNoRule2 urlHostname c7cfg c7evt :=
  claim7_slow_needs_header urlHostname c7cfg c7evt (Or.inl rfl)

/-- Claim C8: for every scoped intent and every event, the classifier
built by `createCustomSanitizer` returns the same verdict as the one
built by `createSmartSanitizer` on the translated configuration
(captureOnly.domains as ownDomains, captureOnly.patterns as
apiPatterns, ignore.domains as ignoredDomains, and — when
ignore.patterns is given — a customFilter rejecting exactly the URLs
matching an ignored pattern). -/
theorem claim8_scoped_equiv (windowHostname : Option String)
    (parse : String → Option String) (config : CustomSanitizerConfig)
    (data : RequestEvent) :
    createCustomSanitizer windowHostname parse config data =
      createSmartSanitizer windowHostname parse (scopedOptionsSpec config) data := by
  unfold createCustomSanitizer scopedOptionsSpec
  cases config.ignore.bind fun c => c.patterns <;> rfl

/-- Rule 1 ignores the custom filter. -/
theorem rule1Fires_filter_update (config : SanitizerConfig)
    (f : Option (RequestEvent → Except Unit Bool)) (data : RequestEvent) :
    rule1Fires { config with customFilter := f } data = rule1Fires config data := rfl

/-- Rule 2 ignores the custom filter. -/
theorem rule2Fires_filter_update (config : SanitizerConfig)
    (f : Option (RequestEvent → Except Unit Bool)) (data : RequestEvent) :
    rule2Fires { config with customFilter := f } data = rule2Fires config data := rfl

/-- Rule 3 ignores the custom filter. -/
theorem rule3Fires_filter_update (config : SanitizerConfig)
    (f : Option (RequestEvent → Except Unit Bool)) (data : RequestEvent) :
    rule3Fires { config with customFilter := f } data = rule3Fires config data := rfl

/-- Rule 4 ignores the custom filter. -/
theorem rule4Fires_filter_update (parse : String → Option String)
    (config : SanitizerConfig) (f : Option (RequestEvent → Except Unit Bool))
    (data : RequestEvent) :
    rule4Fires parse { config with customFilter := f } data =
      rule4Fires parse config data := rfl

/-- Rule 5 ignores the custom filter. -/
theorem rule5Fires_filter_update (config : SanitizerConfig)
    (f : Option (RequestEvent → Except Unit Bool)) (data : RequestEvent) :
    rule5Fires { config with customFilter := f } data = rule5Fires config data := rfl

/-- Rule 7 ignores the custom filter. -/
theorem rule7Fires_filter_update (parse : String → Option String)
    (config : SanitizerConfig) (f : Option (RequestEvent → Except Unit Bool))
    (data : RequestEvent) :
    rule7Fires parse { config with customFilter := f } data =
      rule7Fires parse config data := rfl

/-- Replacing the custom filter replaces only that field. -/
theorem customFilter_update (config : SanitizerConfig)
    (f : Option (RequestEvent → Except Unit Bool)) :
    ({ config with customFilter := f } : SanitizerConfig).customFilter = f := rfl

/-- Claim C9: for two configurations identical except for the custom
filter, every event on which one of rules 1 through 7 decides the
verdict gets the same verdict from both classifiers — the custom filter
influences classification only for events reaching rule 8. -/
theorem claim9_filter_isolated (parse : String → Option String)
    (config : SanitizerConfig) (f : Option (RequestEvent → Except Unit Bool))
    (data : RequestEvent)
    (h : decidedByRules17 parse config data = true) :
    smartSanitizer parse { config with customFilter := f } data =
      smartSanitizer parse config data := by
  unfold smartSanitizer
  rw [rule1Fires_filter_update, rule2Fires_filter_update, rule3Fires_filter_update,
    rule4Fires_filter_update, rule5Fires_filter_update, customFilter_update]
  cases h1 : rule1Fires config data with
  | true => simp [h1]
  | false =>
  cases h2 : rule2Fires config data with
  | true => simp [h1, h2]
  | false =>
  cases h3 : rule3Fires config data with
  | true => simp [h1, h2, h3]
  | false =>
  cases h4 : rule4Fires parse config data with
  | true => simp [h1, h2, h3, h4]
  | false =>
  cases h5 : rule5Fires config data with
  | true => simp [h1, h2, h3, h4, h5]
  | false =>
  cases hm : data.method with
  | none => simp [h1, h2, h3, h4, h5, hm]
  | some m =>
  cases h6 : rule6Fires m with
  | true => simp [h1, h2, h3, h4, h5, hm, h6]
  | false =>
  cases h7 : rule7Fires parse config data with
  | true => simp [h1, h2, h3, h4, h5, hm, h6, h7, rule7Fires_filter_update]
  | false =>
    exfalso
    simp [decidedByRules17, h1, h2, h3, h4, h5, hm, h6, h7] at h

/-- Witness for claim C9: a POST event decided by rule 6 gets the same
verdict whether or not an always-true filter is installed. -/
theorem claim9_filter_isolated_witness :
    smartSanitizer urlHostname { c9cfg with customFilter := c9filter } c9evt =
      smartSanitizer urlHostname c9cfg c9evt :=
  claim9_filter_isolated urlHostname c9cfg c9filter c9evt rfl

/-- Claim C10: an empty-string list entry matches every URL.  First,
for every event not kept by rules 1 and 2, an empty string in the
ignored-domains list forces Drop.  Second, with an empty string in the
own-domains list, every event reaching rule 7 is kept — even when the
extracted hostname is itself the empty string. -/
theorem claim10_empty_entry_matches :
    (∀ (parse : String → Option String) (config : SanitizerConfig)
      (data : RequestEvent), rule1Fires config data = false →
      rule2Fires config data = false → "" ∈ config.ignoredDomains →
      smartSanitizer parse config data = Except.ok none) ∧
    (∀ (parse : String → Option String) (config : SanitizerConfig)
      (data : RequestEvent) (m : String), rule1Fires config data = false →
      rule2Fires config data = false → rule3Fires config data = false →
      rule4Fires parse config data = false → rule5Fires config data = false →
      data.method = some m → rule6Fires m = false → "" ∈ config.ownDomains →
      smartSanitizer parse config data = Except.ok (some data)) := by
  constructor
  · intro parse config data h1 h2 hmem
    cases h3 : rule3Fires config data with
    | true => simp [smartSanitizer, h1, h2, h3]
    | false =>
      have h4 : rule4Fires parse config data = true := by
        simp only [rule4Fires, List.any_eq_true]
        exact ⟨"", hmem, by simp [jsIncludes_empty_pattern]⟩
      simp [smartSanitizer, h1, h2, h3, h4]
  · intro parse config data m h1 h2 h3 h4 h5 hm h6 hmem
    have h7 : rule7Fires parse config data = true := by
      simp only [rule7Fires, List.any_eq_true]
      exact ⟨"", hmem, jsIncludes_empty_pattern _⟩
    simp [smartSanitizer, h1, h2, h3, h4, h5, hm, h6, h7]

/-- Witness for claim C10, both parts, at an unparsable URL whose
extracted hostname is the empty string. -/
theorem claim10_empty_entry_matches_witness :
    smartSanitizer urlHostname c10cfgA c10evt = Except.ok none ∧
    smartSanitizer urlHostname c10cfgB c10evt = Except.ok (some c10evt) :=
  ⟨claim10_empty_entry_matches.1 urlHostname c10cfgA c10evt rfl rfl (by decide),
   claim10_empty_entry_matches.2 urlHostname c10cfgB c10evt "GET" rfl rfl rfl rfl
     rfl rfl rfl (by decide)⟩

end NetworkSanitizer
